import Mathlib

/-!
Verification of the Whitelistv2 authentication server (`src/server.js`).

The server is a small Express application over a MySQL `whitelist` table.
We embed it shallowly:

* a table row carries the `HWID` and `redeemedBy` columns; a SQL `NULL`
  is `Option.none`, a string cell is `Option.some`;
* the store is an association list from the `Key` column to a row;
* request-body / header values are `Option String` (`none` = the JS
  value `undefined`, i.e. the field is absent);
* the `/verify_key` handler becomes `verifyFault`, which also takes two
  fault flags injecting a failing read or write (the `catch` branch of
  the handler), and reports how many store reads/writes it performed;
* the authentication middleware becomes `authPass`, with JS `===` on
  possibly-undefined strings modelled by equality of `Option String`
  and JS truthiness of `a || b` modelled by `resolveCred`;
* app-level routing (`app.use` middleware before both routes) becomes
  `handleRequest`.
-/

namespace Whitelist

/-- One row of the `whitelist` table, as selected by the handler:
`SELECT HWID, redeemedBy FROM whitelist WHERE Key = ?`.
`none` models SQL `NULL`. -/
structure Row where
  HWID : Option String
  redeemedBy : Option String
deriving DecidableEq, Repr

/-- The `whitelist` table: association list from the `Key` column to the row. -/
abbrev Store := List (String × Row)

/-- `SELECT ... WHERE Key = ?` followed by `rows[0]`: first row whose key matches. -/
def fetch : Store → String → Option Row
  | [], _ => none
  | (k', r) :: rest, k => if k' = k then some r else fetch rest k

/-- `UPDATE whitelist SET HWID = ?, redeemedBy = "true" WHERE Key = ?`:
every row whose key matches gets both columns set in the same statement. -/
def updateBind : Store → String → String → Store
  | [], _, _ => []
  | (k', r) :: rest, k, h =>
    (if k' = k then (k', ⟨some h, some "true"⟩) else (k', r)) :: updateBind rest k h

/-- `entry.HWID` strictly equal to `null`, to the string `"null"`, or to `""`:
the three sentinel representations of an unbound HWID. -/
def hwidUnset (v : Option String) : Bool :=
  v = none || v = some "null" || v = some ""

/-- `entry.redeemedBy` strictly unequal to `null`, to the string `"null"`, and to `""`:
the redemption marker counts as set. -/
def redeemedSet (v : Option String) : Bool :=
  !(v = none || v = some "null" || v = some "")

/-- JS truthiness of a request-body / header string field:
`undefined` and `""` are falsy, every other string is truthy. -/
def jsTruthy (v : Option String) : Bool :=
  match v with
  | none => false
  | some s => s ≠ ""

/-- The outcomes of the `/verify_key` handler (one per `res.json` site),
plus the store-failure outcome of its `catch` branch. -/
inductive Outcome
  | MissingInput
  | InvalidKey
  | AlreadyRedeemedByOther
  | RedeemedNow
  | AuthorizedMatch
  | HwidMismatch
  | StoreError
deriving DecidableEq, Repr

/-- HTTP status the handler attaches to each outcome. -/
def statusOf : Outcome → Nat
  | .MissingInput => 400
  | .StoreError => 500
  | _ => 200

/-- The `success` flag the handler attaches to each outcome. -/
def successOf : Outcome → Bool
  | .RedeemedNow => true
  | .AuthorizedMatch => true
  | _ => false

/-- The `message` string the handler attaches to each outcome. -/
def messageOf : Outcome → String
  | .MissingInput => "Missing key or HWID."
  | .InvalidKey => "Invalid key."
  | .AlreadyRedeemedByOther => "This key has already been redeemed by another user."
  | .RedeemedNow => "Key redeemed successfully! Welcome."
  | .AuthorizedMatch => "Authentication successful! Welcome."
  | .HwidMismatch => "HWID mismatch. This key is linked to a different device."
  | .StoreError => "Internal server error."

/-- Result of one `/verify_key` request: the outcome, the store after the
request, and how many store reads and writes were attempted. -/
structure VerifyResult where
  outcome : Outcome
  store : Store
  reads : Nat
  writes : Nat
deriving DecidableEq, Repr

/-- The `/verify_key` handler. `key` and `hwid` come from the JSON body
(`none` = field absent). `readFails` / `writeFails` inject a store error
into the corresponding `connection.execute`; a thrown error reaches the
`catch` branch, which answers 500 "Internal server error".

Mirrors `src/server.js` lines 42-93:
guard `!key || !hwid`; `SELECT`; `rows.length === 0`; the HWID sentinel
branch with the `redeemedBy` check and the `UPDATE`; the exact-match
branch; the mismatch branch. -/
def verifyFault (s : Store) (key hwid : Option String) (readFails writeFails : Bool) :
    VerifyResult :=
  if !jsTruthy key || !jsTruthy hwid then
    ⟨.MissingInput, s, 0, 0⟩
  else
    match key, hwid with
    | some k, some h =>
      if readFails then ⟨.StoreError, s, 1, 0⟩
      else
        match fetch s k with
        | none => ⟨.InvalidKey, s, 1, 0⟩
        | some entry =>
          if hwidUnset entry.HWID then
            if redeemedSet entry.redeemedBy then ⟨.AlreadyRedeemedByOther, s, 1, 0⟩
            else if writeFails then ⟨.StoreError, s, 1, 1⟩
            else ⟨.RedeemedNow, updateBind s k h, 1, 1⟩
          else if entry.HWID = some h then ⟨.AuthorizedMatch, s, 1, 0⟩
          else ⟨.HwidMismatch, s, 1, 0⟩
    | _, _ => ⟨.MissingInput, s, 0, 0⟩

/-- The handler with a healthy store (no injected faults). -/
def verify (s : Store) (key hwid : Option String) : VerifyResult :=
  verifyFault s key hwid false false

/-- the header `x-server-auth` or else the body field `serverAuthKey`:
the header wins when truthy, otherwise the body field is used as-is. -/
def resolveCred (hd bodyKey : Option String) : Option String :=
  if jsTruthy hd then hd else bodyKey

/-- The authentication middleware test
`serverAuthKey === process.env.SERVER_API_KEY`: JS strict equality on
two possibly-undefined strings, which is equality of `Option String`
(in particular `undefined === undefined` is `true`). -/
def authPass (hd bodyKey secret : Option String) : Bool :=
  resolveCred hd bodyKey = secret

/-- The two routes the app registers. -/
inductive Route
  | verifyKey
  | health
deriving DecidableEq, Repr

/-- An inbound request: the route, the `x-server-auth` header, and the
`serverAuthKey`, `key`, `hwid` fields of the JSON body (`none` = absent). -/
structure Request where
  route : Route
  hd : Option String
  bodyAuthKey : Option String
  key : Option String
  hwid : Option String
deriving DecidableEq, Repr

/-- A response the app sends: either an API-style body of a success flag
and a message with a status, or the health body of a status field and a
message. -/
inductive AppResponse
  | api (status : Nat) (success : Bool) (message : String)
  | healthBody (status : Nat) (statusField : String) (message : String)
deriving DecidableEq, Repr

/-- Result of dispatching one request through the whole app. -/
structure AppResult where
  response : AppResponse
  store : Store
  reads : Nat
  writes : Nat
deriving DecidableEq, Repr

/-- The whole app: the `app.use` authentication middleware runs first for
every route (it is registered before both handlers), then the matched
handler. `secret` is `process.env.SERVER_API_KEY` (`none` = unset). -/
def handleRequest (secret : Option String) (s : Store) (req : Request) : AppResult :=
  if authPass req.hd req.bodyAuthKey secret then
    match req.route with
    | .verifyKey =>
      let r := verify s req.key req.hwid
      ⟨.api (statusOf r.outcome) (successOf r.outcome) (messageOf r.outcome),
        r.store, r.reads, r.writes⟩
    | .health =>
      ⟨.healthBody 200 "ok" "Auth server is running.", s, 0, 0⟩
  else
    ⟨.api 401 false "Unauthorized: Invalid server key.", s, 0, 0⟩

/-! ### Interleaved execution of two `/verify_key` requests

The handler is `async`: it awaits the `SELECT`, and only then issues the
`UPDATE`. Between the two awaits another request on the same pool can run.
We model an in-flight request as a phase machine — about to read, holding
a fetched row and about to act, or finished — and run two sessions under
an explicit interleaving schedule. -/

/-- The (key, hwid) pair of one in-flight `/verify_key` request; both are
non-empty strings (the guard has already passed). -/
structure Session where
  key : String
  hwid : String
deriving DecidableEq, Repr

/-- Phase of an in-flight request: before its `SELECT`; after its `SELECT`
(holding the row it saw) and before it acts; or finished with an outcome. -/
inductive Phase
  | toRead
  | toAct (entry : Option Row)
  | finished (o : Outcome)
deriving DecidableEq, Repr

/-- One step of one session against the shared store: the `SELECT`, or the
decision (which for a first-use row issues the `UPDATE`). -/
def stepSession (st : Store) (ses : Session) : Phase → Store × Phase
  | .toRead => (st, .toAct (fetch st ses.key))
  | .toAct none => (st, .finished .InvalidKey)
  | .toAct (some r) =>
    if hwidUnset r.HWID then
      if redeemedSet r.redeemedBy then (st, .finished .AlreadyRedeemedByOther)
      else (updateBind st ses.key ses.hwid, .finished .RedeemedNow)
    else if r.HWID = some ses.hwid then (st, .finished .AuthorizedMatch)
    else (st, .finished .HwidMismatch)
  | .finished o => (st, .finished o)

/-- Shared store plus the phases of two concurrent sessions. -/
structure ConcState where
  store : Store
  p1 : Phase
  p2 : Phase
deriving DecidableEq, Repr

/-- Run two sessions under a schedule: `true` steps session 1,
`false` steps session 2. -/
def runConc (ses1 ses2 : Session) : List Bool → ConcState → ConcState
  | [], st => st
  | b :: rest, st =>
    if b then
      let q := stepSession st.store ses1 st.p1
      runConc ses1 ses2 rest ⟨q.1, q.2, st.p2⟩
    else
      let q := stepSession st.store ses2 st.p2
      runConc ses1 ses2 rest ⟨q.1, st.p1, q.2⟩

/-- Run a sequence of (key, hwid) verification requests against a store,
threading the store through (no injected faults). -/
def runSeq (s : Store) : List (Option String × Option String) → Store
  | [] => s
  | (k, h) :: rest => runSeq (verify s k h).store rest

/-! ### Branch lemmas for the handler -/

theorem verify_missing (s : Store) (key hwid : Option String) (rf wf : Bool)
    (h : jsTruthy key = false ∨ jsTruthy hwid = false) :
    verifyFault s key hwid rf wf = ⟨.MissingInput, s, 0, 0⟩ := by
  unfold verifyFault
  rcases h with h | h <;> simp [h]

theorem verify_readfail (s : Store) (k h : String) (wf : Bool)
    (hk : k ≠ "") (hh : h ≠ "") :
    verifyFault s (some k) (some h) true wf = ⟨.StoreError, s, 1, 0⟩ := by
  unfold verifyFault
  simp [jsTruthy, hk, hh]

theorem verify_invalid (s : Store) (k h : String) (wf : Bool)
    (hk : k ≠ "") (hh : h ≠ "") (hr : fetch s k = none) :
    verifyFault s (some k) (some h) false wf = ⟨.InvalidKey, s, 1, 0⟩ := by
  unfold verifyFault
  simp [jsTruthy, hk, hh, hr]

theorem verify_already (s : Store) (k h : String) (wf : Bool) (r : Row)
    (hk : k ≠ "") (hh : h ≠ "") (hr : fetch s k = some r)
    (hu : hwidUnset r.HWID = true) (hrd : redeemedSet r.redeemedBy = true) :
    verifyFault s (some k) (some h) false wf = ⟨.AlreadyRedeemedByOther, s, 1, 0⟩ := by
  unfold verifyFault
  simp [jsTruthy, hk, hh, hr, hu, hrd]

theorem verify_writefail (s : Store) (k h : String) (r : Row)
    (hk : k ≠ "") (hh : h ≠ "") (hr : fetch s k = some r)
    (hu : hwidUnset r.HWID = true) (hrd : redeemedSet r.redeemedBy = false) :
    verifyFault s (some k) (some h) false true = ⟨.StoreError, s, 1, 1⟩ := by
  unfold verifyFault
  simp [jsTruthy, hk, hh, hr, hu, hrd]

theorem verify_redeem (s : Store) (k h : String) (r : Row)
    (hk : k ≠ "") (hh : h ≠ "") (hr : fetch s k = some r)
    (hu : hwidUnset r.HWID = true) (hrd : redeemedSet r.redeemedBy = false) :
    verifyFault s (some k) (some h) false false = ⟨.RedeemedNow, updateBind s k h, 1, 1⟩ := by
  unfold verifyFault
  simp [jsTruthy, hk, hh, hr, hu, hrd]

theorem verify_bound_match (s : Store) (k h : String) (wf : Bool) (r : Row)
    (hk : k ≠ "") (hh : h ≠ "") (hr : fetch s k = some r)
    (hu : hwidUnset r.HWID = false) (he : r.HWID = some h) :
    verifyFault s (some k) (some h) false wf = ⟨.AuthorizedMatch, s, 1, 0⟩ := by
  have hu' : hwidUnset (some h) = false := he ▸ hu
  unfold verifyFault
  simp [jsTruthy, hk, hh, hr, he, hu']

theorem verify_bound_mismatch (s : Store) (k h : String) (wf : Bool) (r : Row)
    (hk : k ≠ "") (hh : h ≠ "") (hr : fetch s k = some r)
    (hu : hwidUnset r.HWID = false) (he : r.HWID ≠ some h) :
    verifyFault s (some k) (some h) false wf = ⟨.HwidMismatch, s, 1, 0⟩ := by
  unfold verifyFault
  simp [jsTruthy, hk, hh, hr, hu, he]

/-! ### Store lemmas -/

theorem fetch_cons (k0 : String) (r0 : Row) (rest : Store) (k : String) :
    fetch ((k0, r0) :: rest) k = if k0 = k then some r0 else fetch rest k := rfl

theorem updateBind_cons (k0 : String) (r0 : Row) (rest : Store) (k h : String) :
    updateBind ((k0, r0) :: rest) k h =
      (if k0 = k then (k0, (⟨some h, some "true"⟩ : Row)) else (k0, r0)) ::
        updateBind rest k h := rfl

theorem fetch_updateBind_self (s : Store) (k h : String) (r : Row)
    (hr : fetch s k = some r) :
    fetch (updateBind s k h) k = some ⟨some h, some "true"⟩ := by
  induction s with
  | nil => simp [fetch] at hr
  | cons p rest ih =>
    obtain ⟨k0, r0⟩ := p
    rw [updateBind_cons]
    by_cases e : k0 = k
    · rw [if_pos e, fetch_cons, if_pos e]
    · rw [if_neg e, fetch_cons, if_neg e]
      rw [fetch_cons, if_neg e] at hr
      exact ih hr

theorem fetch_updateBind_ne (s : Store) (k k' h : String) (hne : k ≠ k') :
    fetch (updateBind s k h) k' = fetch s k' := by
  induction s with
  | nil => rfl
  | cons p rest ih =>
    obtain ⟨k0, r0⟩ := p
    rw [updateBind_cons]
    by_cases e1 : k0 = k
    · have e0 : k0 ≠ k' := fun hq => hne (e1.symm.trans hq)
      rw [if_pos e1, fetch_cons, fetch_cons, if_neg e0, if_neg e0]
      exact ih
    · rw [if_neg e1, fetch_cons, fetch_cons]
      by_cases e0 : k0 = k'
      · rw [if_pos e0, if_pos e0]
      · rw [if_neg e0, if_neg e0]
        exact ih

/-- Every `/verify_key` request either leaves the store untouched, or its
inputs were present and it performed the single conditional-branch
`UPDATE` on a row it saw as unbound and unredeemed. -/
theorem verifyFault_store_cases (s : Store) (key hwid : Option String) (rf wf : Bool) :
    (verifyFault s key hwid rf wf).store = s ∨
      ∃ k h r, key = some k ∧ hwid = some h ∧ fetch s k = some r ∧
        hwidUnset r.HWID = true ∧ redeemedSet r.redeemedBy = false ∧
        (verifyFault s key hwid rf wf).store = updateBind s k h := by
  cases key with
  | none => left; rw [verify_missing s none hwid rf wf (Or.inl rfl)]
  | some k =>
    cases hwid with
    | none => left; rw [verify_missing s (some k) none rf wf (Or.inr rfl)]
    | some h =>
      by_cases hk : k = ""
      · left
        rw [verify_missing s (some k) (some h) rf wf (Or.inl (by simp [jsTruthy, hk]))]
      · by_cases hh : h = ""
        · left
          rw [verify_missing s (some k) (some h) rf wf (Or.inr (by simp [jsTruthy, hh]))]
        · cases rf with
          | true => left; rw [verify_readfail s k h wf hk hh]
          | false =>
            rcases hfetch : fetch s k with _ | r
            · left; rw [verify_invalid s k h wf hk hh hfetch]
            · rcases hu : hwidUnset r.HWID with _ | _
              · rcases he : decide (r.HWID = some h) with _ | _
                · left
                  rw [verify_bound_mismatch s k h wf r hk hh hfetch hu (of_decide_eq_false he)]
                · left
                  rw [verify_bound_match s k h wf r hk hh hfetch hu (of_decide_eq_true he)]
              · rcases hrd : redeemedSet r.redeemedBy with _ | _
                · cases wf with
                  | true => left; rw [verify_writefail s k h r hk hh hfetch hu hrd]
                  | false =>
                    right
                    exact ⟨k, h, r, rfl, rfl, hfetch, hu, hrd,
                      by rw [verify_redeem s k h r hk hh hfetch hu hrd]⟩
                · left; rw [verify_already s k h wf r hk hh hfetch hu hrd]

/-- A `/verify_key` request never changes the row of a key whose `HWID`
column is non-sentinel (not `NULL`, not `"null"`, not `""`). -/
theorem fetch_after_verify_bound (s : Store) (k : String) (r : Row)
    (key hwid : Option String)
    (hr : fetch s k = some r) (hb : hwidUnset r.HWID = false) :
    fetch (verify s key hwid).store k = some r := by
  unfold verify
  rcases verifyFault_store_cases s key hwid false false with
    hst | ⟨k', h', r', _, _, hf, hu, _, hst⟩
  · rw [hst]; exact hr
  · rw [hst]
    by_cases hkk : k' = k
    · subst hkk
      rw [hf] at hr
      cases hr
      rw [hu] at hb
      cases hb
    · rw [fetch_updateBind_ne s k' k h' hkk]
      exact hr

/-- When a fault was injected into an attempted store operation, the
request answers `StoreError` and the store is unchanged. -/
theorem verifyFault_fail (s : Store) (key hwid : Option String) (rf wf : Bool)
    (hf : (rf = true ∧ 1 ≤ (verifyFault s key hwid rf wf).reads) ∨
          (wf = true ∧ 1 ≤ (verifyFault s key hwid rf wf).writes)) :
    (verifyFault s key hwid rf wf).outcome = .StoreError ∧
    (verifyFault s key hwid rf wf).store = s := by
  cases key with
  | none =>
    rw [verify_missing s none hwid rf wf (Or.inl rfl)] at hf
    simp at hf
  | some k =>
    cases hwid with
    | none =>
      rw [verify_missing s (some k) none rf wf (Or.inr rfl)] at hf
      simp at hf
    | some h =>
      by_cases hk : k = ""
      · rw [verify_missing s (some k) (some h) rf wf
          (Or.inl (by simp [jsTruthy, hk]))] at hf
        simp at hf
      · by_cases hh : h = ""
        · rw [verify_missing s (some k) (some h) rf wf
            (Or.inr (by simp [jsTruthy, hh]))] at hf
          simp at hf
        · cases rf with
          | true =>
            rw [verify_readfail s k h wf hk hh]
            exact ⟨rfl, rfl⟩
          | false =>
            rcases hfetch : fetch s k with _ | r
            · rw [verify_invalid s k h wf hk hh hfetch] at hf
              simp at hf
            · rcases hu : hwidUnset r.HWID with _ | _
              · by_cases he : r.HWID = some h
                · rw [verify_bound_match s k h wf r hk hh hfetch hu he] at hf
                  simp at hf
                · rw [verify_bound_mismatch s k h wf r hk hh hfetch hu he] at hf
                  simp at hf
              · rcases hrd : redeemedSet r.redeemedBy with _ | _
                · cases wf with
                  | true =>
                    rw [verify_writefail s k h r hk hh hfetch hu hrd]
                    exact ⟨rfl, rfl⟩
                  | false =>
                    rw [verify_redeem s k h r hk hh hfetch hu hrd] at hf
                    simp at hf
                · rw [verify_already s k h wf r hk hh hfetch hu hrd] at hf
                  simp at hf

/-! ### Claims -/

/-- C1: the claim says the bind write is conditional on the unbound state,
so that a record with a non-empty `boundHwid` at write time is never
changed and at most one racer obtains `RedeemedNow`. The code, with its
`UPDATE whitelist SET HWID = ?, redeemedBy = ? WHERE Key = ?` is keyed on
the key alone: interleaving two first-use requests on the initially
unbound key `"K"` as read, read, write, write makes both finish
`RedeemedNow`, and the second write overwrites the binding `"H1"` that the
first had just committed with `"H2"`. -/
theorem race_double_redeem :
    (runConc ⟨"K", "H1"⟩ ⟨"K", "H2"⟩ [true, false, true, false]
        ⟨[("K", ⟨none, none⟩)], .toRead, .toRead⟩).p1 = .finished .RedeemedNow ∧
    (runConc ⟨"K", "H1"⟩ ⟨"K", "H2"⟩ [true, false, true, false]
        ⟨[("K", ⟨none, none⟩)], .toRead, .toRead⟩).p2 = .finished .RedeemedNow ∧
    (runConc ⟨"K", "H1"⟩ ⟨"K", "H2"⟩ [true, false]
        ⟨[("K", ⟨none, none⟩)], .toRead, .toRead⟩).store =
      [("K", ⟨none, none⟩)] ∧
    updateBind [("K", ⟨some "H1", some "true"⟩)] "K" "H2" =
      [("K", ⟨some "H2", some "true"⟩)] ∧
    (runConc ⟨"K", "H1"⟩ ⟨"K", "H2"⟩ [true, false, true, false]
        ⟨[("K", ⟨none, none⟩)], .toRead, .toRead⟩).store =
      [("K", ⟨some "H2", some "true"⟩)] := by
  decide

/-- C2: the claim says the Access Gate rejects every request whose
credential is not exactly the configured secret, and rejects everything
when the secret is empty or unset. The middleware compares with JS `===`:
with `SERVER_API_KEY` unset and no credential supplied both sides are
`undefined`, so the gate passes the request, which then reaches the store
(one read is performed) and can even redeem a key; an empty configured
secret likewise matches an empty body credential. -/
theorem gate_accepts_missing_credential :
    authPass none none none = true ∧
    authPass (some "") (some "") (some "") = true ∧
    (handleRequest none [("K", ⟨none, none⟩)]
        ⟨.verifyKey, none, none, some "K", some "H1"⟩).reads = 1 ∧
    (handleRequest none [("K", ⟨none, none⟩)]
        ⟨.verifyKey, none, none, some "K", some "H1"⟩).response =
      .api 200 true "Key redeemed successfully! Welcome." := by
  decide

/-- C3 (counterexample): the health handler is registered after the
`app.use` authentication middleware, so a `/health` request carrying no
credential while a secret is configured is answered 401 by the gate,
never reaching the "ok" body. -/
theorem health_gated_cex :
    handleRequest (some "s") [] ⟨.health, none, none, none, none⟩ =
      ⟨.api 401 false "Unauthorized: Invalid server key.", [], 0, 0⟩ ∧
    (handleRequest (some "s") [] ⟨.health, none, none, none, none⟩).response ≠
      .healthBody 200 "ok" "Auth server is running." := by
  decide

/-- C3 (amended): for every `/health` request whose credential passes the
Access Gate, the app answers the "ok" body, leaves the store unchanged
and performs no store read or write. -/
theorem health_ok_after_gate (secret : Option String) (s : Store) (req : Request)
    (hroute : req.route = .health)
    (hauth : authPass req.hd req.bodyAuthKey secret = true) :
    handleRequest secret s req =
      ⟨.healthBody 200 "ok" "Auth server is running.", s, 0, 0⟩ := by
  obtain ⟨route, hd0, bk, k0, h0⟩ := req
  simp only at hroute hauth
  subst hroute
  unfold handleRequest
  simp [hauth]

theorem health_ok_after_gate_witness :
    (⟨.health, some "s", none, none, none⟩ : Request).route = .health ∧
    authPass (some "s") none (some "s") = true ∧
    handleRequest (some "s") [] ⟨.health, some "s", none, none, none⟩ =
      ⟨.healthBody 200 "ok" "Auth server is running.", [], 0, 0⟩ :=
  ⟨rfl, by decide,
    health_ok_after_gate (some "s") [] ⟨.health, some "s", none, none, none⟩ rfl
      (by decide)⟩

/-- C4 (counterexample): a record whose `HWID` column holds the non-empty
string `"null"` is treated as unbound by the sentinel test, so a single
verify call rebinds it: `boundHwid` changes from `"null"` to `"H2"`. -/
theorem bound_null_overwritten_cex :
    fetch [("K", ⟨some "null", none⟩)] "K" = some ⟨some "null", none⟩ ∧
    (some "null" : Option String) ≠ some "" ∧
    fetch (runSeq [("K", ⟨some "null", none⟩)] [(some "K", some "H2")]) "K" =
      some ⟨some "H2", some "true"⟩ ∧
    (some "H2" : Option String) ≠ some "null" := by
  decide

/-- C4 (amended): for every key whose record has a non-sentinel `HWID`
(not SQL `NULL`, not the literal `"null"`, not `""`), no sequence of
verify operations, with any key and hwid arguments, ever changes that
record — in particular its `boundHwid` never changes. -/
theorem bound_row_immutable (s : Store) (k : String) (r : Row)
    (hr : fetch s k = some r) (hb : hwidUnset r.HWID = false)
    (ops : List (Option String × Option String)) :
    fetch (runSeq s ops) k = some r := by
  induction ops generalizing s with
  | nil => exact hr
  | cons op rest ih =>
    obtain ⟨key, hwid⟩ := op
    exact ih (verify s key hwid).store (fetch_after_verify_bound s k r key hwid hr hb)

theorem bound_row_immutable_witness :
    fetch [("K", (⟨some "H1", some "true"⟩ : Row))] "K" =
      some ⟨some "H1", some "true"⟩ ∧
    hwidUnset (some "H1") = false ∧
    fetch (runSeq [("K", (⟨some "H1", some "true"⟩ : Row))]
        [(some "K", some "H2"), (some "K", some "H1")]) "K" =
      some ⟨some "H1", some "true"⟩ :=
  ⟨rfl, by decide,
    bound_row_immutable [("K", ⟨some "H1", some "true"⟩)] "K"
      ⟨some "H1", some "true"⟩ rfl (by decide)
      [(some "K", some "H2"), (some "K", some "H1")]⟩

/-- C5 (counterexample): the claim quantifies over every non-empty
`hwidA`. For `hwidA = "null"` the first call redeems but the second call
sees the freshly written `HWID = "null"` as the unbound sentinel and,
since `redeemedBy` is now `"true"`, answers `AlreadyRedeemedByOther`
instead of `AuthorizedMatch`; and for a record stored under the empty key
string the first call already fails the input guard with `MissingInput`. -/
theorem redeem_null_hwid_cex :
    ("null" : String) ≠ "" ∧
    (verify [("K", ⟨none, none⟩)] (some "K") (some "null")).outcome =
      .RedeemedNow ∧
    (verify (verify [("K", ⟨none, none⟩)] (some "K") (some "null")).store
        (some "K") (some "null")).outcome = .AlreadyRedeemedByOther ∧
    (verify (verify [("K", ⟨none, none⟩)] (some "K") (some "null")).store
        (some "K") (some "null")).outcome ≠ .AuthorizedMatch ∧
    (verify [("", ⟨none, none⟩)] (some "") (some "H1")).outcome =
      .MissingInput := by
  decide

/-- C5 (amended): for every unbound, unredeemed record stored under a
non-empty key, and every non-empty `hwidA` other than the literal
`"null"`, verify(key, hwidA) twice answers `RedeemedNow` then
`AuthorizedMatch`, and the store ends with `HWID = hwidA` and the
redemption marker `redeemedBy = "true"` set. -/
theorem redeem_then_match (s : Store) (k hA : String) (r : Row)
    (hk : k ≠ "") (hr : fetch s k = some r)
    (hu : hwidUnset r.HWID = true) (hrd : redeemedSet r.redeemedBy = false)
    (hA1 : hA ≠ "") (hA2 : hA ≠ "null") :
    (verify s (some k) (some hA)).outcome = .RedeemedNow ∧
    (verify (verify s (some k) (some hA)).store (some k) (some hA)).outcome =
      .AuthorizedMatch ∧
    fetch (verify (verify s (some k) (some hA)).store (some k) (some hA)).store k =
      some ⟨some hA, some "true"⟩ ∧
    redeemedSet (some "true") = true := by
  have h1 : verifyFault s (some k) (some hA) false false =
      ⟨.RedeemedNow, updateBind s k hA, 1, 1⟩ :=
    verify_redeem s k hA r hk hA1 hr hu hrd
  have hfetch2 : fetch (updateBind s k hA) k = some ⟨some hA, some "true"⟩ :=
    fetch_updateBind_self s k hA r hr
  have hu2 : hwidUnset (some hA) = false := by simp [hwidUnset, hA1, hA2]
  have h2 : verifyFault (updateBind s k hA) (some k) (some hA) false false =
      ⟨.AuthorizedMatch, updateBind s k hA, 1, 0⟩ :=
    verify_bound_match (updateBind s k hA) k hA false ⟨some hA, some "true"⟩
      hk hA1 hfetch2 hu2 rfl
  simp only [verify, h1, h2]
  exact ⟨trivial, trivial, hfetch2, by decide⟩

theorem redeem_then_match_witness :
    ("K" : String) ≠ "" ∧
    fetch [("K", (⟨none, none⟩ : Row))] "K" = some ⟨none, none⟩ ∧
    hwidUnset (none : Option String) = true ∧
    redeemedSet (none : Option String) = false ∧
    ("H1" : String) ≠ "" ∧
    ("H1" : String) ≠ "null" ∧
    (verify [("K", (⟨none, none⟩ : Row))] (some "K") (some "H1")).outcome =
      .RedeemedNow ∧
    (verify (verify [("K", (⟨none, none⟩ : Row))] (some "K") (some "H1")).store
        (some "K") (some "H1")).outcome = .AuthorizedMatch :=
  ⟨by decide, rfl, rfl, rfl, by decide, by decide,
    (redeem_then_match [("K", ⟨none, none⟩)] "K" "H1" ⟨none, none⟩
      (by decide) rfl rfl rfl (by decide) (by decide)).1,
    (redeem_then_match [("K", ⟨none, none⟩)] "K" "H1" ⟨none, none⟩
      (by decide) rfl rfl rfl (by decide) (by decide)).2.1⟩

/-- C6 (counterexample): the claim quantifies over every `otherHwid`
different from the bound one. For `otherHwid = ""` the request fails the
input guard with `MissingInput` (a 400), not `HwidMismatch`; likewise a
bound record stored under the empty key string answers `MissingInput`,
not `AuthorizedMatch`. -/
theorem rematch_empty_other_cex :
    hwidUnset (some "H1") = false ∧
    ("" : String) ≠ "H1" ∧
    (verify [("K", ⟨some "H1", some "true"⟩)] (some "K") (some "")).outcome =
      .MissingInput ∧
    (verify [("K", ⟨some "H1", some "true"⟩)] (some "K") (some "")).outcome ≠
      .HwidMismatch ∧
    (verify [("", ⟨some "H1", some "true"⟩)] (some "") (some "H1")).outcome =
      .MissingInput := by
  decide

/-- C6 (amended): for every record stored under a non-empty key and bound
to a non-sentinel HWID `b`: verify(key, b) answers `AuthorizedMatch`
without mutation; any number of repeated verify(key, b) calls leaves the
store exactly unchanged (hence each of them answers `AuthorizedMatch`);
and verify(key, other) for non-empty `other ≠ b` answers `HwidMismatch`
without mutation. -/
theorem rematch_idempotent (s : Store) (k b : String) (r : Row)
    (hk : k ≠ "") (hr : fetch s k = some r) (he : r.HWID = some b)
    (hb : hwidUnset r.HWID = false) :
    verify s (some k) (some b) = ⟨.AuthorizedMatch, s, 1, 0⟩ ∧
    (∀ n : Nat, runSeq s (List.replicate n (some k, some b)) = s) ∧
    (∀ other : String, other ≠ "" → other ≠ b →
      verify s (some k) (some other) = ⟨.HwidMismatch, s, 1, 0⟩) := by
  have hb' : b ≠ "" := by
    intro e
    rw [he, e] at hb
    simp [hwidUnset] at hb
  have h1 : verifyFault s (some k) (some b) false false =
      ⟨.AuthorizedMatch, s, 1, 0⟩ :=
    verify_bound_match s k b false r hk hb' hr hb he
  refine ⟨h1, ?_, ?_⟩
  · intro n
    induction n with
    | zero => rfl
    | succ m ihm =>
      simp only [List.replicate_succ, runSeq, verify, h1]
      exact ihm
  · intro other ho1 ho2
    refine verify_bound_mismatch s k other false r hk ho1 hr hb ?_
    rw [he]
    intro q
    exact ho2 (Option.some.inj q).symm

theorem rematch_idempotent_witness :
    ("K" : String) ≠ "" ∧
    fetch [("K", (⟨some "H1", some "true"⟩ : Row))] "K" =
      some ⟨some "H1", some "true"⟩ ∧
    (⟨some "H1", some "true"⟩ : Row).HWID = some "H1" ∧
    hwidUnset (⟨some "H1", some "true"⟩ : Row).HWID = false ∧
    verify [("K", (⟨some "H1", some "true"⟩ : Row))] (some "K") (some "H1") =
      ⟨.AuthorizedMatch, [("K", ⟨some "H1", some "true"⟩)], 1, 0⟩ ∧
    runSeq [("K", (⟨some "H1", some "true"⟩ : Row))]
        (List.replicate 3 (some "K", some "H1")) =
      [("K", ⟨some "H1", some "true"⟩)] ∧
    verify [("K", (⟨some "H1", some "true"⟩ : Row))] (some "K") (some "H2") =
      ⟨.HwidMismatch, [("K", ⟨some "H1", some "true"⟩)], 1, 0⟩ :=
  ⟨by decide, rfl, rfl, by decide,
    (rematch_idempotent [("K", ⟨some "H1", some "true"⟩)] "K" "H1"
      ⟨some "H1", some "true"⟩ (by decide) rfl rfl (by decide)).1,
    (rematch_idempotent [("K", ⟨some "H1", some "true"⟩)] "K" "H1"
      ⟨some "H1", some "true"⟩ (by decide) rfl rfl (by decide)).2.1 3,
    (rematch_idempotent [("K", ⟨some "H1", some "true"⟩)] "K" "H1"
      ⟨some "H1", some "true"⟩ (by decide) rfl rfl (by decide)).2.2 "H2"
      (by decide) (by decide)⟩

/-- C7: the literal string `"null"` (like SQL `NULL` and `""`) is the
unbound sentinel for both `HWID` and `redeemedBy`, and it is a valid
client input: a client presenting hwid `"null"` against the unbound,
unredeemed key `"K"` successfully redeems and binds `HWID = "null"`, and
every subsequent verify(key, `"null"`) then answers
`AlreadyRedeemedByOther` — not `AuthorizedMatch` — leaving the store
unchanged. -/
theorem sentinel_null_collision :
    hwidUnset (some "null") = true ∧ hwidUnset none = true ∧
    hwidUnset (some "") = true ∧
    redeemedSet (some "null") = false ∧ redeemedSet none = false ∧
    redeemedSet (some "") = false ∧
    jsTruthy (some "null") = true ∧
    verify [("K", ⟨none, none⟩)] (some "K") (some "null") =
      ⟨.RedeemedNow, [("K", ⟨some "null", some "true"⟩)], 1, 1⟩ ∧
    verify [("K", ⟨some "null", some "true"⟩)] (some "K") (some "null") =
      ⟨.AlreadyRedeemedByOther, [("K", ⟨some "null", some "true"⟩)], 1, 0⟩ ∧
    Outcome.AlreadyRedeemedByOther ≠ Outcome.AuthorizedMatch := by
  decide

/-- C8 (counterexample): the claim quantifies over every key not present
in the store. The empty key string is absent from the empty store, yet
verify answers `MissingInput` (the input guard fires first), not
`InvalidKey`. -/
theorem invalid_key_empty_key_cex :
    fetch [] "" = none ∧
    (verify [] (some "") (some "H1")).outcome = .MissingInput ∧
    (verify [] (some "") (some "H1")).outcome ≠ .InvalidKey := by
  decide

/-- C8 (amended): for every non-empty key not present in the store and
any non-empty hwid, verify answers `InvalidKey`, leaves the store
unchanged, performs no write, and reports it with HTTP 200 — a normal
negative result, not the 500 of a system error. -/
theorem invalid_key_no_mutation (s : Store) (k h : String)
    (hk : k ≠ "") (hh : h ≠ "") (hr : fetch s k = none) :
    verify s (some k) (some h) = ⟨.InvalidKey, s, 1, 0⟩ ∧
    statusOf .InvalidKey = 200 ∧ statusOf .InvalidKey ≠ 500 ∧
    statusOf .InvalidKey ≠ statusOf .StoreError :=
  ⟨verify_invalid s k h false hk hh hr, rfl, by decide, by decide⟩

theorem invalid_key_no_mutation_witness :
    ("K" : String) ≠ "" ∧ ("H1" : String) ≠ "" ∧
    fetch [("L", (⟨none, none⟩ : Row))] "K" = none ∧
    verify [("L", (⟨none, none⟩ : Row))] (some "K") (some "H1") =
      ⟨.InvalidKey, [("L", ⟨none, none⟩)], 1, 0⟩ :=
  ⟨by decide, by decide, rfl,
    (invalid_key_no_mutation [("L", ⟨none, none⟩)] "K" "H1"
      (by decide) (by decide) rfl).1⟩

/-- C9: whenever the `key` or `hwid` body field is missing or the empty
string, the handler answers `MissingInput` immediately — HTTP 400, a
client error — leaving the store unchanged and performing no store read
or write at all, regardless of any injected store fault. -/
theorem missing_input_guard (s : Store) (key hwid : Option String) (rf wf : Bool)
    (h : key = none ∨ key = some "" ∨ hwid = none ∨ hwid = some "") :
    verifyFault s key hwid rf wf = ⟨.MissingInput, s, 0, 0⟩ ∧
    statusOf .MissingInput = 400 ∧ successOf .MissingInput = false := by
  refine ⟨verify_missing s key hwid rf wf ?_, rfl, rfl⟩
  rcases h with h | h | h | h
  · left; rw [h]; rfl
  · left; rw [h]; decide
  · right; rw [h]; rfl
  · right; rw [h]; decide

theorem missing_input_guard_witness :
    ((some "" : Option String) = none ∨ (some "" : Option String) = some "" ∨
      (some "H1" : Option String) = none ∨ (some "H1" : Option String) = some "") ∧
    verifyFault [("K", (⟨none, none⟩ : Row))] (some "") (some "H1") false false =
      ⟨.MissingInput, [("K", ⟨none, none⟩)], 0, 0⟩ :=
  ⟨Or.inr (Or.inl rfl),
    (missing_input_guard [("K", ⟨none, none⟩)] (some "") (some "H1") false false
      (Or.inr (Or.inl rfl))).1⟩

/-- C10: the only mutation the engine ever performs is the single
`UPDATE` that sets `HWID` and `redeemedBy` together — every request
either leaves the store exactly unchanged or leaves, for the supplied
inputs, a row with `HWID = hwid` and `redeemedBy = "true"` both set; and
whenever an attempted store read or write fails, the outcome is
`StoreError` with the store unchanged, never `InvalidKey`. -/
theorem bind_atomic (s : Store) (key hwid : Option String) (rf wf : Bool) :
    ((verifyFault s key hwid rf wf).store = s ∨
      ∃ k h, key = some k ∧ hwid = some h ∧
        (verifyFault s key hwid rf wf).store = updateBind s k h ∧
        fetch (verifyFault s key hwid rf wf).store k =
          some ⟨some h, some "true"⟩) ∧
    ((rf = true ∧ 1 ≤ (verifyFault s key hwid rf wf).reads) ∨
        (wf = true ∧ 1 ≤ (verifyFault s key hwid rf wf).writes) →
      (verifyFault s key hwid rf wf).outcome = .StoreError ∧
      (verifyFault s key hwid rf wf).store = s ∧
      (verifyFault s key hwid rf wf).outcome ≠ .InvalidKey) := by
  constructor
  · rcases verifyFault_store_cases s key hwid rf wf with
      hst | ⟨k, h, r, hkey, hhwid, hfetch, _, _, hst⟩
    · left; exact hst
    · right
      refine ⟨k, h, hkey, hhwid, hst, ?_⟩
      rw [hst]
      exact fetch_updateBind_self s k h r hfetch
  · intro hfail
    obtain ⟨ho, hs⟩ := verifyFault_fail s key hwid rf wf hfail
    refine ⟨ho, hs, ?_⟩
    rw [ho]
    decide

theorem bind_atomic_witness :
    ((true = true ∧
        1 ≤ (verifyFault [("K", (⟨none, none⟩ : Row))] (some "K") (some "H1")
              true false).reads) ∨
      (false = true ∧
        1 ≤ (verifyFault [("K", (⟨none, none⟩ : Row))] (some "K") (some "H1")
              true false).writes)) ∧
    (verifyFault [("K", (⟨none, none⟩ : Row))] (some "K") (some "H1")
        true false).outcome = .StoreError ∧
    (verifyFault [("K", (⟨none, none⟩ : Row))] (some "K") (some "H1")
        true false).store = [("K", ⟨none, none⟩)] :=
  ⟨Or.inl ⟨rfl, by decide⟩,
    ((bind_atomic [("K", ⟨none, none⟩)] (some "K") (some "H1") true false).2
      (Or.inl ⟨rfl, by decide⟩)).1,
    ((bind_atomic [("K", ⟨none, none⟩)] (some "K") (some "H1") true false).2
      (Or.inl ⟨rfl, by decide⟩)).2.1⟩

end Whitelist
